import Mathlib

/-!
Verification of the Vision-Language Runtime core: the application state
machine (src/js/utils/state-machine.js), the VLM inference service with its
single-flight lock (runInference), and the webcam service with bounded
exponential-backoff auto-recovery (attemptAutoRecovery).  The definitions
below are shallow embeddings translated directly from the JavaScript source.
-/

namespace StateMachine

/-- View states of the application, from the ViewState typedef. -/
inductive ViewState where
  | permission
  | welcome
  | loading
  | runtime
  | error
  | imageUpload
  deriving DecidableEq, Repr

/-- Runtime execution states, from the RuntimeState typedef. -/
inductive RuntimeState where
  | idle
  | warming
  | running
  | paused
  | recovering
  | failed
  deriving DecidableEq, Repr

/-- Loading screen phases, from the LoadingPhase typedef. -/
inductive LoadingPhase where
  | loadingModel
  | loadingWgpu
  | warmingUp
  | complete
  deriving DecidableEq, Repr

/-- Handlers attached to recovery actions.  The machine itself only builds
handlers that dispatch a named event or reload the page; a FATAL_ERROR
payload may carry an arbitrary handler of the same shape. -/
inductive Handler where
  | dispatchEvent (name : String)
  | reloadPage
  deriving DecidableEq, Repr

/-- RecoverAction record: label plus click handler. -/
structure RecoverAction where
  label : String
  handler : Handler
  deriving DecidableEq, Repr

/-- ErrorState record from the source typedef. -/
structure ErrorState where
  code : String
  message : String
  technical : Option String
  recoverAction : Option RecoverAction
  deriving DecidableEq, Repr

/-- Media streams are identified abstractly; track liveness is modelled by
an external map, since the state machine never touches tracks. -/
abbrev StreamId := Nat

/-- Event payloads (the duck-typed data objects passed to dispatch).
Fields not supplied by a caller are none. -/
structure Payload where
  stream : Option StreamId := none
  message : Option String := none
  technical : Option String := none
  reason : Option String := none
  code : Option String := none
  error : Option String := none
  recoverAction : Option RecoverAction := none
  deriving DecidableEq, Repr

/-- AppState record from the source typedef. -/
structure AppState where
  viewState : ViewState
  runtimeState : RuntimeState
  loadingPhase : LoadingPhase
  webcamStream : Option StreamId
  isVideoReady : Bool
  hasWebGPU : Bool
  error : Option ErrorState
  deriving DecidableEq, Repr

/-- JavaScript `a || b` on strings: an absent or empty string falls back to
the default. -/
def jsOrStr (o : Option String) (d : String) : String :=
  match o with
  | none => d
  | some s => if s = "" then d else s

/-- Source state of a transition: an exact view state or the wildcard. -/
inductive TransitionFrom where
  | exact (v : ViewState)
  | any
  deriving DecidableEq, Repr

/-- StateTransition record: event name, source, target, optional guard and
optional action, as in the source typedef. -/
structure Transition where
  event : String
  fromState : TransitionFrom
  toState : ViewState
  guard : Option (Payload → AppState → Bool) := none
  action : Option (Payload → AppState → AppState) := none

/-- The transition table from defineTransitions, in source order. -/
def transitions : List Transition :=
  [ { event := "PERMISSION_GRANTED"
    , fromState := .exact .permission
    , toState := .welcome
    , guard := some fun d _ => d.stream.isSome
    , action := some fun d s => { s with webcamStream := d.stream } }
  , { event := "PERMISSION_DENIED"
    , fromState := .exact .permission
    , toState := .error
    , action := some fun d s =>
        { s with error := some (ErrorState.mk "CAMERA_DENIED"
          (jsOrStr d.message "Camera access denied") d.technical
          (some (RecoverAction.mk "Retry" (.dispatchEvent "RETRY")))) } }
  , { event := "START"
    , fromState := .exact .welcome
    , toState := .loading
    , guard := some fun _ s => s.hasWebGPU && s.webcamStream.isSome
    , action := some fun _ s => { s with loadingPhase := .loadingWgpu } }
  , { event := "START_FALLBACK"
    , fromState := .exact .welcome
    , toState := .imageUpload
    , guard := some fun _ s => !s.hasWebGPU }
  , { event := "WGPU_READY"
    , fromState := .exact .loading
    , toState := .loading
    , action := some fun _ s => { s with loadingPhase := .loadingModel } }
  , { event := "MODEL_LOADED"
    , fromState := .exact .loading
    , toState := .loading
    , action := some fun _ s =>
        { s with loadingPhase := .warmingUp, runtimeState := .warming } }
  , { event := "WARMUP_COMPLETE"
    , fromState := .exact .loading
    , toState := .runtime
    , guard := some fun _ s => s.isVideoReady
    , action := some fun _ s =>
        { s with loadingPhase := .complete, runtimeState := .running } }
  , { event := "PAUSE"
    , fromState := .exact .runtime
    , toState := .runtime
    , action := some fun _ s => { s with runtimeState := .paused } }
  , { event := "RESUME"
    , fromState := .exact .runtime
    , toState := .runtime
    , action := some fun _ s => { s with runtimeState := .running } }
  , { event := "STREAM_ENDED"
    , fromState := .exact .runtime
    , toState := .runtime
    , action := some fun d s =>
        { s with
            runtimeState := .recovering,
            error := some (ErrorState.mk "STREAM_LOST"
              (jsOrStr d.reason "Camera stream lost") none
              (some (RecoverAction.mk "Reconnect"
                (.dispatchEvent "RETRY_STREAM")))) } }
  , { event := "STREAM_RECOVERED"
    , fromState := .exact .runtime
    , toState := .runtime
    , guard := some fun _ s => s.runtimeState == .recovering
    , action := some fun d s =>
        { s with
            webcamStream := d.stream,
            runtimeState := .running,
            error := none } }
  , { event := "MODEL_FAILED"
    , fromState := .exact .loading
    , toState := .error
    , action := some fun d s =>
        { s with
            runtimeState := .failed,
            error := some (ErrorState.mk "MODEL_LOAD_FAILED"
              "Failed to load AI model" d.error
              (some (RecoverAction.mk "Reload Page" .reloadPage))) } }
  , { event := "FATAL_ERROR"
    , fromState := .any
    , toState := .error
    , action := some fun d s =>
        { s with
            runtimeState := .failed,
            error := some (ErrorState.mk (jsOrStr d.code "UNKNOWN_ERROR")
              (jsOrStr d.message "An unexpected error occurred") d.technical
              (some (d.recoverAction.getD
                (RecoverAction.mk "Reload Page" .reloadPage)))) } }
  , { event := "RETRY"
    , fromState := .exact .error
    , toState := .permission
    , action := some fun _ s =>
        { s with error := none, runtimeState := .idle } }
  ]

/-- Whether a transition source matches the current view state (exact match
or wildcard), as in the find predicate of dispatch. -/
def fromMatches (f : TransitionFrom) (v : ViewState) : Bool :=
  match f with
  | .exact w => w == v
  | .any => true

/-- Detail record carried by the statechange notification. -/
structure ChangeDetail where
  state : AppState
  prevState : AppState
  event : String
  data : Payload
  deriving DecidableEq, Repr

/-- Application of a found transition: run the action, then advance the
view state to the target when it differs from the captured current state. -/
def applyTransition (t : Transition) (s : AppState) (d : Payload) : AppState :=
  let s1 := match t.action with
    | some a => a d s
    | none => s
  if t.toState ≠ s.viewState then { s1 with viewState := t.toState } else s1

/-- Dispatch from the source: find the first matching transition; a missing
match or a failing guard returns false with the state untouched and no
notification; otherwise the action runs, the view state advances, and a
statechange notification is emitted. -/
def dispatch (s : AppState) (event : String) (d : Payload) :
    Bool × AppState × Option ChangeDetail :=
  match transitions.find? (fun t =>
      t.event == event && fromMatches t.fromState s.viewState) with
  | none => (false, s, none)
  | some t =>
    let guardOk := match t.guard with
      | some g => g d s
      | none => true
    if guardOk then
      let s2 := applyTransition t s d
      (true, s2, some { state := s2, prevState := s, event := event, data := d })
    else
      (false, s, none)

/-- The canTransitionTo query: only exact source matches are considered,
never the wildcard. -/
def canTransitionTo (s : AppState) (target : ViewState) : Bool :=
  transitions.any fun t =>
    (match t.fromState with
     | .exact v => v == s.viewState
     | .any => false) && t.toState == target

/-- Default initial state from the constructor. -/
def initState : AppState :=
  { viewState := .permission
  , runtimeState := .idle
  , loadingPhase := .loadingModel
  , webcamStream := none
  , isVideoReady := false
  , hasWebGPU := true
  , error := none }

/-- States reachable from the default initial state by sequences of
dispatches with arbitrary events and payloads. -/
inductive Reachable : AppState → Prop where
  | init : Reachable initState
  | step (s : AppState) (e : String) (d : Payload) :
      Reachable s → Reachable (dispatch s e d).2.1

end StateMachine

namespace Webcam

/-- Maximum number of auto-recovery attempts, from the module constant. -/
def MAX_RECOVERY_ATTEMPTS : Nat := 3

/-- Backoff delay in milliseconds computed for attempt number n, which in
the source is the counter value after its increment: the base delay of
1000ms doubled per attempt and capped at 8000ms. -/
def backoffDelay (n : Nat) : Nat :=
  min (1000 * 2 ^ (n - 1)) 8000

/-- Module-level mutable state of the webcam service relevant to recovery:
the autoRecoveryEnabled flag and the recoveryAttempts counter. -/
structure RecoveryState where
  enabled : Bool
  attempts : Nat
  deriving DecidableEq, Repr

/-- Recovery procedure translated from attemptAutoRecovery.  The outcome
function abstracts the result of the nth requestWebcamPermission call
(true means the stream was acquired).  Returns the success flag, the final
recovery state, and the list of backoff delays waited, in order.  On a
successful acquisition the attempt counter is reset to zero (the reset in
requestWebcamPermission and the reset in attemptAutoRecovery coincide). -/
def attemptAutoRecovery (outcome : Nat → Bool) (s : RecoveryState) :
    Bool × RecoveryState × List Nat :=
  if h : ¬ s.enabled ∨ s.attempts ≥ MAX_RECOVERY_ATTEMPTS then
    (false, s, [])
  else
    let a := s.attempts + 1
    let delay := backoffDelay a
    if outcome a then
      (true, { s with attempts := 0 }, [delay])
    else if a < MAX_RECOVERY_ATTEMPTS then
      let r := attemptAutoRecovery outcome { s with attempts := a }
      (r.1, r.2.1, delay :: r.2.2)
    else
      (false, { s with attempts := a }, [delay])
termination_by MAX_RECOVERY_ATTEMPTS - s.attempts
decreasing_by
  simp only [not_or, not_le, MAX_RECOVERY_ATTEMPTS] at *
  omega

/-- Track-ended listener from requestWebcamPermission: run auto-recovery,
then fire the stream-ended callback with the terminal failure message if
recovery failed, or the reconnection message if it succeeded (the callback
is assumed registered).  Returns the final recovery state and the message
passed to the callback. -/
def handleTrackEnded (outcome : Nat → Bool) (s : RecoveryState) :
    RecoveryState × Option String :=
  let r := attemptAutoRecovery outcome s
  if !r.1 then
    (r.2.1, some "Camera disconnected and auto-recovery failed")
  else
    (r.2.1, some "Camera reconnected")

end Webcam

namespace VLM

/-- JavaScript String.prototype.trim: strips leading and trailing
whitespace, modelled executably over the character list. -/
def jsTrim (s : String) : String :=
  ⟨((s.data.dropWhile Char.isWhitespace).reverse.dropWhile
      Char.isWhitespace).reverse⟩

/-- Mutable fields of the VLMService singleton relevant to inference. -/
structure VLMService where
  hasProcessor : Bool
  hasModel : Bool
  inferenceLock : Bool
  deriving DecidableEq, Repr

/-- Outcome of a runInference call: skipped returns the empty string
immediately while another inference holds the lock, failed models a thrown
error, ok carries the final caption text. -/
inductive InferOutcome where
  | skipped (result : String)
  | failed (msg : String)
  | ok (text : String)
  deriving DecidableEq, Repr

/-- Entry of runInference up to the lock: while the lock is held the call
returns the empty string at once without touching state; otherwise the lock
is acquired and the call proceeds (first component none). -/
def runInferenceEntry (s : VLMService) : Option String × VLMService :=
  if s.inferenceLock then
    (some "", s)
  else
    (none, { s with inferenceLock := true })

/-- Remainder of runInference once the lock is held: a missing processor or
model releases the lock and throws; a generation error releases the lock
and rethrows; otherwise the final text is the trimmed streamed text, or the
trimmed decoded output when streaming produced nothing, and the lock is
released. -/
def runInferenceBody (s : VLMService) (streamed decoded : String)
    (genOk : Bool) : InferOutcome × VLMService :=
  if !(s.hasProcessor && s.hasModel) then
    (.failed "Model/processor not loaded", { s with inferenceLock := false })
  else if !genOk then
    (.failed "Inference error", { s with inferenceLock := false })
  else
    let finalText := if jsTrim streamed ≠ "" then jsTrim streamed
      else jsTrim decoded
    (.ok finalText, { s with inferenceLock := false })

/-- Full runInference call as the composition of entry and body. -/
def runInference (s : VLMService) (streamed decoded : String)
    (genOk : Bool) : InferOutcome × VLMService :=
  match runInferenceEntry s with
  | (some r, s1) => (.skipped r, s1)
  | (none, s1) => runInferenceBody s1 streamed decoded genOk

end VLM

namespace SnapshotModel

open StateMachine

/-- Heap-allocated error object; only identity-relevant fields are kept. -/
structure ErrObj where
  code : String
  message : String
  deriving DecidableEq, Repr

/-- Top-level state object: the fields of this.state, with the nested error
record represented by its heap address (JavaScript object reference). -/
structure TopObj where
  viewState : ViewState
  runtimeState : RuntimeState
  errorRef : Option Nat
  deriving DecidableEq, Repr

/-- Heap of the relevant JavaScript objects: top-level state objects and
error objects, addressed by list index. -/
structure Heap where
  tops : List TopObj
  errs : List ErrObj
  deriving DecidableEq, Repr

/-- The getState method: the spread copies the top-level fields into a
fresh object, so the snapshot is a value, but the nested error reference is
copied as the same address (shallow copy). -/
def getState (h : Heap) (a : Nat) : Option TopObj :=
  h.tops.get? a

/-- Mutation of an error object through a held reference, as a caller could
perform on the snapshot returned by getState. -/
def writeErrMessage (h : Heap) (i : Nat) (msg : String) : Heap :=
  { h with errs := h.errs.set i { h.errs.getD i ⟨"", ""⟩ with message := msg } }

/-- Message of the error record of the live state, read through the heap. -/
def liveErrMessage (h : Heap) (a : Nat) : Option String := do
  let t ← h.tops.get? a
  let i ← t.errorRef
  let e ← h.errs.get? i
  pure e.message

/-- Notification detail as dispatch emits it: detail.state is the live
state object itself (an address), while detail.prevState is the spread
copy, a fresh value of the pre-transition top-level fields. -/
structure Detail where
  stateRef : Nat
  prevState : TopObj
  deriving DecidableEq, Repr

/-- Emission of the statechange notification for the machine whose live
state lives at address a. -/
def emitDetail (h : Heap) (a : Nat) : Option Detail :=
  (h.tops.get? a).map fun t => { stateRef := a, prevState := t }

/-- In-place mutation of a top-level field of the live state object, as the
transition actions perform (this.state.runtimeState = ...). -/
def setRuntimeInPlace (h : Heap) (a : Nat) (r : RuntimeState) : Heap :=
  { h with tops :=
      h.tops.set a ({ h.tops.getD a ⟨.permission, .idle, none⟩ with runtimeState := r }) }

/-- Reading the new-state carried by a notification detail resolves the
live address through the current heap. -/
def readDetailState (h : Heap) (d : Detail) : Option TopObj :=
  h.tops.get? d.stateRef

end SnapshotModel

namespace StateMachine

/-- External track liveness: true means every track of the stream has been
stopped.  The state machine source contains no call that stops tracks, so a
dispatch acts as the identity on this component. -/
def TrackMap := StreamId → Bool

/-- Dispatch lifted to the pair of machine state and external track map.
No transition action invokes track.stop, so the track component is
untouched by construction, mirroring the source. -/
def dispatchWorld (w : AppState × TrackMap) (e : String) (d : Payload) :
    AppState × TrackMap :=
  ((dispatch w.1 e d).2.1, w.2)

/-- Strengthened inductive invariant for the dispatch-reachable states:
isVideoReady and hasWebGPU are never written by any transition action, so
the guard of WARMUP_COMPLETE can never pass and the guard of
START_FALLBACK can never pass; consequently the runtime and image-upload
views are never entered, and the remaining views constrain runtimeState
and error as listed. -/
def Inv (s : AppState) : Prop :=
  s.isVideoReady = false ∧ s.hasWebGPU = true ∧
  match s.viewState with
  | .permission => s.runtimeState = .idle ∧ s.error = none
  | .welcome => s.runtimeState = .idle ∧ s.error = none
  | .loading =>
      (s.runtimeState = .idle ∨ s.runtimeState = .warming) ∧ s.error = none
  | .imageUpload => s.runtimeState = .idle ∧ s.error = none
  | .runtime => False
  | .error =>
      s.error ≠ none ∧ (s.runtimeState = .idle ∨ s.runtimeState = .failed)

end StateMachine

namespace SnapshotModel

/-- Sample heap: one live state object at address 0 whose error field
points at the CAMERA_DENIED error object at address 0, as after a
PERMISSION_DENIED transition. -/
def sampleHeap : Heap :=
  { tops := [⟨.error, .idle, some 0⟩]
  , errs := [⟨"CAMERA_DENIED", "Camera access denied"⟩] }

end SnapshotModel

namespace StateMachine

/-- C2: dispatching an event for which no transition rule matches the
current (event, viewState) pair returns false, leaves the whole
ApplicationState unchanged, and emits no subscriber notification. -/
theorem dispatch_unmatched_noop (s : AppState) (e : String) (d : Payload)
    (h : transitions.find? (fun t =>
      t.event == e && fromMatches t.fromState s.viewState) = none) :
    dispatch s e d = (false, s, none) := by
  unfold dispatch
  rw [h]

/-- Witness for dispatch_unmatched_noop at a concrete unmatched event. -/
theorem dispatch_unmatched_noop_witness :
    dispatch initState "BOGUS" {} = (false, initState, none) :=
  dispatch_unmatched_noop initState "BOGUS" {} rfl

/-- C5: dispatching START from the welcome view with hasWebGPU false is
rejected by the guard: dispatch returns false, the state is unchanged (so
the view stays welcome and never becomes loading), and nothing is
emitted. -/
theorem start_rejected_without_webgpu (s : AppState) (d : Payload)
    (hv : s.viewState = .welcome) (hw : s.hasWebGPU = false) :
    dispatch s "START" d = (false, s, none) := by
  obtain ⟨v, rt, lp, ws, ivr, gpu, err⟩ := s
  simp only [AppState.viewState] at hv
  simp only [AppState.hasWebGPU] at hw
  subst hv; subst hw
  rfl

/-- Witness for start_rejected_without_webgpu at a concrete state. -/
theorem start_rejected_without_webgpu_witness :
    dispatch { initState with viewState := .welcome, hasWebGPU := false }
      "START" {}
      = (false, { initState with viewState := .welcome, hasWebGPU := false },
          none) :=
  start_rejected_without_webgpu _ {} rfl rfl

/-- C10: canTransitionTo only considers exact-source rules and ignores the
wildcard, so from the welcome view canTransitionTo error is false even
though dispatching FATAL_ERROR from the very same state succeeds and moves
the view to error. -/
theorem canTransitionTo_wildcard_blind (s : AppState) (d : Payload)
    (hv : s.viewState = .welcome) :
    canTransitionTo s .error = false ∧
    (dispatch s "FATAL_ERROR" d).1 = true ∧
    (dispatch s "FATAL_ERROR" d).2.1.viewState = .error := by
  obtain ⟨v, rt, lp, ws, ivr, gpu, err⟩ := s
  simp only [AppState.viewState] at hv
  subst hv
  exact ⟨rfl, rfl, rfl⟩

/-- Witness for canTransitionTo_wildcard_blind at a concrete state. -/
theorem canTransitionTo_wildcard_blind_witness :
    canTransitionTo { initState with viewState := .welcome } .error = false ∧
    (dispatch { initState with viewState := .welcome } "FATAL_ERROR" {}).1
      = true ∧
    (dispatch { initState with viewState := .welcome }
      "FATAL_ERROR" {}).2.1.viewState = .error :=
  canTransitionTo_wildcard_blind _ {} rfl

/-- C8: the STREAM_LOST error built by the STREAM_ENDED transition carries
a Reconnect recovery action whose handler dispatches RETRY_STREAM, but no
transition rule in the table has the event RETRY_STREAM, so invoking the
handler is rejected: dispatch returns false and leaves the state unchanged,
a dead end with no escape path. -/
theorem stream_lost_dead_end :
    ((dispatch { initState with viewState := .runtime, runtimeState := .running } "STREAM_ENDED" {}).2.1.error.map ErrorState.recoverAction)
      = some (some ⟨"Reconnect", .dispatchEvent "RETRY_STREAM"⟩) ∧
    transitions.all (fun t => t.event != "RETRY_STREAM") = true ∧
    dispatch (dispatch { initState with viewState := .runtime, runtimeState := .running } "STREAM_ENDED" {}).2.1 "RETRY_STREAM" {}
      = (false,
          (dispatch { initState with viewState := .runtime, runtimeState := .running } "STREAM_ENDED" {}).2.1,
          none) :=
  ⟨rfl, rfl, rfl⟩

/-- C4 counterexample: a fully dispatch-reachable run in which the machine
replaces a non-null webcamStream without any track of the previous stream
having been stopped: grant stream 1, hit FATAL_ERROR, RETRY back to
permission (webcamStream still stream 1), then grant stream 2.  The track
map records stream 1 as never stopped. -/
theorem stream_replaced_while_tracks_live :
    (dispatchWorld (dispatchWorld (dispatchWorld
        (initState, fun _ => false)
        "PERMISSION_GRANTED" { stream := some 1 })
        "FATAL_ERROR" {})
        "RETRY" {}).1.webcamStream = some 1 ∧
    (dispatchWorld (dispatchWorld (dispatchWorld (dispatchWorld
        (initState, fun _ => false)
        "PERMISSION_GRANTED" { stream := some 1 })
        "FATAL_ERROR" {})
        "RETRY" {})
        "PERMISSION_GRANTED" { stream := some 2 }).1.webcamStream
      = some 2 ∧
    (dispatchWorld (dispatchWorld (dispatchWorld (dispatchWorld
        (initState, fun _ => false)
        "PERMISSION_GRANTED" { stream := some 1 })
        "FATAL_ERROR" {})
        "RETRY" {})
        "PERMISSION_GRANTED" { stream := some 2 }).2 1 = false :=
  ⟨rfl, rfl, rfl⟩

/-- C4 amended: the state machine transitions never stop media tracks:
every dispatch leaves the external track state of every stream unchanged,
so a transition can replace a non-null webcamStream while the previous
stream's tracks remain live, and after STREAM_RECOVERED the previous
stream's tracks are stopped exactly when they were already stopped before
the dispatch. -/
theorem dispatch_preserves_tracks (s : AppState) (tm : TrackMap)
    (e : String) (d : Payload) (sid : StreamId) :
    (dispatchWorld (s, tm) e d).2 = tm ∧
    ((dispatchWorld (s, tm) "STREAM_RECOVERED" d).2 sid = true ↔
      tm sid = true) :=
  ⟨rfl, Iff.rfl⟩

end StateMachine

namespace VLM

/-- C1: single-flight inference.  From an unlocked service with processor
and model loaded, the first runOnce call acquires the lock; a second call
arriving while the first is still in flight returns the empty string
immediately without blocking or touching state; the first call then
completes with the non-empty trimmed streamed text and releases the lock,
so of the two overlapping calls exactly one yields a non-empty final result
and at most one inference is ever in flight. -/
theorem runInference_single_flight (s : VLMService) (streamed decoded : String)
    (h0 : s.inferenceLock = false) (hp : s.hasProcessor = true)
    (hm : s.hasModel = true) (ht : jsTrim streamed ≠ "") :
    runInferenceEntry s = (none, { s with inferenceLock := true }) ∧
    runInferenceEntry { s with inferenceLock := true }
      = (some "", { s with inferenceLock := true }) ∧
    runInferenceBody { s with inferenceLock := true } streamed decoded true
      = (.ok (jsTrim streamed), { s with inferenceLock := false }) ∧
    jsTrim streamed ≠ "" := by
  obtain ⟨p, m, l⟩ := s
  simp only [VLMService.inferenceLock] at h0
  simp only [VLMService.hasProcessor] at hp
  simp only [VLMService.hasModel] at hm
  subst h0; subst hp; subst hm
  refine ⟨rfl, rfl, ?_, ht⟩
  simp [runInferenceBody, ht]

/-- Witness for runInference_single_flight at a concrete service state and
caption. -/
theorem runInference_single_flight_witness :
    runInferenceEntry ⟨true, true, false⟩ = (none, ⟨true, true, true⟩) ∧
    runInferenceEntry ⟨true, true, true⟩ = (some "", ⟨true, true, true⟩) ∧
    runInferenceBody ⟨true, true, true⟩ "a cat" "" true
      = (.ok (jsTrim "a cat"), ⟨true, true, false⟩) ∧
    jsTrim "a cat" ≠ "" :=
  runInference_single_flight ⟨true, true, false⟩ "a cat" "" rfl rfl rfl
    (by decide)

end VLM

namespace SnapshotModel

/-- C9 counterexample: getState is a shallow spread copy, so the snapshot
shares the nested error object: writing the error message through the
address held by the snapshot changes the live state; moreover the
notification detail carries the live state object itself, so an in-place
mutation performed after emission is visible through the notification. -/
theorem snapshot_not_isolated :
    getState sampleHeap 0 = some ⟨.error, .idle, some 0⟩ ∧
    liveErrMessage sampleHeap 0 = some "Camera access denied" ∧
    liveErrMessage (writeErrMessage sampleHeap 0 "mutated") 0
      = some "mutated" ∧
    emitDetail sampleHeap 0 = some ⟨0, ⟨.error, .idle, some 0⟩⟩ ∧
    readDetailState (setRuntimeInPlace sampleHeap 0 .failed)
      ⟨0, ⟨.error, .idle, some 0⟩⟩ = some ⟨.error, .failed, some 0⟩ :=
  ⟨rfl, rfl, rfl, rfl, rfl⟩

/-- C9 amended: getState returns a shallow copy whose top-level fields are
a decoupled value but whose nested error record is shared by reference, so
mutating through the snapshot mutates the live error; the notification
detail has prevState as a fresh top-level copy while its new-state field
aliases the live state object and reflects subsequent in-place mutation. -/
theorem getState_shallow_copy (h : Heap) (a i : Nat) (t : TopObj)
    (ht : h.tops.get? a = some t) (hi : t.errorRef = some i)
    (hlen : i < h.errs.length) (msg : String) :
    getState h a = some t ∧
    liveErrMessage (writeErrMessage h i msg) a = some msg ∧
    emitDetail h a = some ⟨a, t⟩ ∧
    (∀ r, readDetailState (setRuntimeInPlace h a r) ⟨a, t⟩
      = some ({ t with runtimeState := r })) := by
  have ht2 : h.tops[a]? = some t := by
    rw [← List.get?_eq_getElem?]; exact ht
  have ha : a < h.tops.length := (List.get?_eq_some.mp ht).1
  refine ⟨ht, ?_, ?_, ?_⟩
  · unfold liveErrMessage writeErrMessage
    simp [ht2, hi, List.getElem?_set, hlen]
  · unfold emitDetail
    simp [ht2]
  · intro r
    unfold readDetailState setRuntimeInPlace
    have hgd : h.tops.getD a ⟨.permission, .idle, none⟩ = t := by
      simp [List.getD, ht2]
    obtain ⟨hb, h3⟩ := List.getElem?_eq_some.mp ht2
    simp [hgd, List.getElem?_set, ha, h3]

/-- Witness for getState_shallow_copy on the sample heap. -/
theorem getState_shallow_copy_witness :
    getState sampleHeap 0 = some ⟨.error, .idle, some 0⟩ ∧
    liveErrMessage (writeErrMessage sampleHeap 0 "changed") 0
      = some "changed" ∧
    emitDetail sampleHeap 0 = some ⟨0, ⟨.error, .idle, some 0⟩⟩ ∧
    (∀ r, readDetailState (setRuntimeInPlace sampleHeap 0 r)
      ⟨0, ⟨.error, .idle, some 0⟩⟩ = some ⟨.error, r, some 0⟩) :=
  getState_shallow_copy sampleHeap 0 0 ⟨.error, .idle, some 0⟩ rfl rfl
    (by decide) "changed"

end SnapshotModel

namespace Webcam

/-- Helper: delays produced by any run of attemptAutoRecovery form a
non-decreasing chain bounded by the 8000ms ceiling, a successful run resets
the attempt counter to zero, and at most MAX_RECOVERY_ATTEMPTS delays are
ever waited. -/
theorem backoff_chain (outcome : Nat → Bool) (s : RecoveryState) :
    List.Chain' (· ≤ ·) (attemptAutoRecovery outcome s).2.2 ∧
    (∀ d ∈ (attemptAutoRecovery outcome s).2.2, d ≤ 8000) ∧
    ((attemptAutoRecovery outcome s).1 = true →
      (attemptAutoRecovery outcome s).2.1.attempts = 0) ∧
    (attemptAutoRecovery outcome s).2.2.length ≤ MAX_RECOVERY_ATTEMPTS := by
  obtain ⟨en, att⟩ := s
  cases en
  · rw [attemptAutoRecovery]
    simp [MAX_RECOVERY_ATTEMPTS]
  · rcases att with _ | _ | _ | n
    · rcases h1 : outcome 1 <;> rcases h2 : outcome 2 <;>
        rcases h3 : outcome 3 <;>
        simp [attemptAutoRecovery, MAX_RECOVERY_ATTEMPTS, h1, h2, h3,
          backoffDelay]
    · rcases h2 : outcome 2 <;> rcases h3 : outcome 3 <;>
        simp [attemptAutoRecovery, MAX_RECOVERY_ATTEMPTS, h2, h3,
          backoffDelay]
    · rcases h3 : outcome 3 <;>
        simp [attemptAutoRecovery, MAX_RECOVERY_ATTEMPTS, h3, backoffDelay]
    · rw [attemptAutoRecovery]
      simp [MAX_RECOVERY_ATTEMPTS]

/-- C6: for every sequence of auto-recovery attempts the waited delays are
non-decreasing and bounded above by the 8000ms ceiling, the attempt counter
is reset to zero exactly when an acquisition succeeds, and three
consecutive failures from a fresh counter wait 1000ms, 2000ms, 4000ms. -/
theorem backoff_monotone_bounded_reset (outcome : Nat → Bool)
    (s : RecoveryState) :
    List.Chain' (· ≤ ·) (attemptAutoRecovery outcome s).2.2 ∧
    (∀ d ∈ (attemptAutoRecovery outcome s).2.2, d ≤ 8000) ∧
    ((attemptAutoRecovery outcome s).1 = true →
      (attemptAutoRecovery outcome s).2.1.attempts = 0) ∧
    (attemptAutoRecovery (fun _ => false) ⟨true, 0⟩).2.2
      = [1000, 2000, 4000] := by
  refine ⟨(backoff_chain outcome s).1, (backoff_chain outcome s).2.1,
    (backoff_chain outcome s).2.2.1, ?_⟩
  simp [attemptAutoRecovery, MAX_RECOVERY_ATTEMPTS, backoffDelay]

/-- Witness for backoff_monotone_bounded_reset: a first-try success resets
the counter to zero. -/
theorem backoff_monotone_bounded_reset_witness :
    (attemptAutoRecovery (fun _ => true) ⟨true, 0⟩).2.1.attempts = 0 :=
  (backoff_monotone_bounded_reset (fun _ => true) ⟨true, 0⟩).2.2.1 (by
    simp [attemptAutoRecovery, MAX_RECOVERY_ATTEMPTS])

/-- C7: auto-recovery always terminates after at most
MAX_RECOVERY_ATTEMPTS acquisition attempts; when every attempt fails, the
terminal stream-ended notification fires with the failure message (to be
surfaced as STREAM_ENDED by the caller), the attempt counter stays at 3
rather than resetting, and a further auto-recovery from that state returns
false immediately, waiting no delay and making no attempt. -/
theorem recovery_bounded_terminal (outcome : Nat → Bool)
    (hfail : ∀ n, outcome n = false) :
    (∀ (o : Nat → Bool) (s : RecoveryState),
      (attemptAutoRecovery o s).2.2.length ≤ MAX_RECOVERY_ATTEMPTS) ∧
    handleTrackEnded outcome ⟨true, 0⟩
      = (⟨true, 3⟩, some "Camera disconnected and auto-recovery failed") ∧
    attemptAutoRecovery outcome ⟨true, 3⟩ = (false, ⟨true, 3⟩, []) := by
  refine ⟨fun o s2 => (backoff_chain o s2).2.2.2, ?_, ?_⟩
  · simp [handleTrackEnded, attemptAutoRecovery, MAX_RECOVERY_ATTEMPTS,
      hfail, backoffDelay]
  · rw [attemptAutoRecovery]
    simp [MAX_RECOVERY_ATTEMPTS]

/-- Witness for recovery_bounded_terminal with the always-failing
acquisition. -/
theorem recovery_bounded_terminal_witness :
    handleTrackEnded (fun _ => false) ⟨true, 0⟩
      = (⟨true, 3⟩, some "Camera disconnected and auto-recovery failed") :=
  (recovery_bounded_terminal (fun _ => false) (fun _ => rfl)).2.1

end Webcam

namespace StateMachine

/-- Helper: the default initial state satisfies the inductive invariant. -/
theorem Inv_init : Inv initState := by
  simp [Inv, initState]

set_option maxHeartbeats 1000000 in
/-- Helper: every dispatch preserves the inductive invariant.  The proof
walks the fourteen transition rules; rules sourced at the runtime view are
unreachable under the invariant, the START_FALLBACK and WARMUP_COMPLETE
guards are refuted by the invariant, and every remaining rule lands in a
view whose invariant clause is re-established by its action. -/
theorem Inv_preserved (s : AppState) (e : String) (d : Payload) (h : Inv s) :
    Inv (dispatch s e d).2.1 := by
  unfold dispatch
  cases hf : transitions.find? (fun t =>
      t.event == e && fromMatches t.fromState s.viewState) with
  | none => simpa using h
  | some t =>
    have hpred := List.find?_some hf
    have hmem := List.mem_of_find?_eq_some hf
    clear hf
    simp only [transitions, List.mem_cons, List.not_mem_nil, or_false]
      at hmem
    obtain ⟨hvid, hgpu, hrest⟩ := h
    rcases hmem with
      rfl | rfl | rfl | rfl | rfl | rfl | rfl | rfl | rfl | rfl | rfl |
      rfl | rfl | rfl
    -- PERMISSION_GRANTED
    · simp only [Bool.and_eq_true, beq_iff_eq, fromMatches] at hpred
      have hv := hpred.2.symm
      simp only [hv] at hrest
      cases hg : d.stream.isSome <;>
        simp [applyTransition, Inv, hv, hvid, hgpu, hrest.1, hrest.2, hg,
          hrest]
    -- PERMISSION_DENIED
    · simp only [Bool.and_eq_true, beq_iff_eq, fromMatches] at hpred
      have hv := hpred.2.symm
      simp only [hv] at hrest
      simp [applyTransition, Inv, hv, hvid, hgpu, hrest.1, hrest.2]
    -- START
    · simp only [Bool.and_eq_true, beq_iff_eq, fromMatches] at hpred
      have hv := hpred.2.symm
      simp only [hv] at hrest
      cases hg : s.webcamStream.isSome <;>
        simp [applyTransition, Inv, hv, hvid, hgpu, hrest.1, hrest.2, hg,
          hrest]
    -- START_FALLBACK
    · simp only [Bool.and_eq_true, beq_iff_eq, fromMatches] at hpred
      have hv := hpred.2.symm
      simp only [hv] at hrest
      simp [applyTransition, Inv, hv, hvid, hgpu, hrest.1, hrest.2, hrest]
    -- WGPU_READY
    · simp only [Bool.and_eq_true, beq_iff_eq, fromMatches] at hpred
      have hv := hpred.2.symm
      simp only [hv] at hrest
      simp [applyTransition, Inv, hv, hvid, hgpu, hrest.1, hrest.2, hrest]
    -- MODEL_LOADED
    · simp only [Bool.and_eq_true, beq_iff_eq, fromMatches] at hpred
      have hv := hpred.2.symm
      simp only [hv] at hrest
      simp [applyTransition, Inv, hv, hvid, hgpu, hrest.1, hrest.2, hrest]
    -- WARMUP_COMPLETE
    · simp only [Bool.and_eq_true, beq_iff_eq, fromMatches] at hpred
      have hv := hpred.2.symm
      simp only [hv] at hrest
      simp [applyTransition, Inv, hv, hvid, hgpu, hrest.1, hrest.2, hrest]
    -- PAUSE
    · simp only [Bool.and_eq_true, beq_iff_eq, fromMatches] at hpred
      have hv := hpred.2.symm
      simp only [hv] at hrest
    -- RESUME
    · simp only [Bool.and_eq_true, beq_iff_eq, fromMatches] at hpred
      have hv := hpred.2.symm
      simp only [hv] at hrest
    -- STREAM_ENDED
    · simp only [Bool.and_eq_true, beq_iff_eq, fromMatches] at hpred
      have hv := hpred.2.symm
      simp only [hv] at hrest
    -- STREAM_RECOVERED
    · simp only [Bool.and_eq_true, beq_iff_eq, fromMatches] at hpred
      have hv := hpred.2.symm
      simp only [hv] at hrest
    -- MODEL_FAILED
    · simp only [Bool.and_eq_true, beq_iff_eq, fromMatches] at hpred
      have hv := hpred.2.symm
      simp only [hv] at hrest
      simp [applyTransition, Inv, hv, hvid, hgpu, hrest.1, hrest.2, hrest]
    -- FATAL_ERROR
    · simp only [Bool.and_eq_true, beq_iff_eq, fromMatches, Bool.and_true]
        at hpred
      rcases eq_or_ne ViewState.error s.viewState with hv | hv
      · simp only [← hv] at hrest
        simp [applyTransition, Inv, ← hv, hvid, hgpu, hrest]
      · simp [applyTransition, Inv, hv, hvid, hgpu]
    -- RETRY
    · simp only [Bool.and_eq_true, beq_iff_eq, fromMatches] at hpred
      have hv := hpred.2.symm
      simp only [hv] at hrest
      simp [applyTransition, Inv, hv, hvid, hgpu, hrest.1, hrest.2, hrest]

/-- Helper: every dispatch-reachable state satisfies the invariant. -/
theorem reachable_inv (s : AppState) (h : Reachable s) : Inv s := by
  induction h with
  | init => exact Inv_init
  | step s e d hs ih => exact Inv_preserved s e d ih

/-- C3: in every state reachable from the default initial state by any
sequence of dispatches, the error field is non-null exactly when the view
is the error screen or the runtime state is recovering or failed. -/
theorem error_presence_invariant (s : AppState) (h : Reachable s) :
    s.error ≠ none ↔
      (s.viewState = .error ∨ s.runtimeState = .recovering ∨
        s.runtimeState = .failed) := by
  obtain ⟨hvid, hgpu, hrest⟩ := reachable_inv s h
  cases hv : s.viewState
  · simp only [hv] at hrest
    simp [hv, hrest.1, hrest.2]
  · simp only [hv] at hrest
    simp [hv, hrest.1, hrest.2]
  · simp only [hv] at hrest
    rcases hrest.1 with h1 | h1 <;> simp [hv, h1, hrest.2]
  · simp only [hv] at hrest
  · simp only [hv] at hrest
    simp [hv, hrest.1]
  · simp only [hv] at hrest
    simp [hv, hrest.1, hrest.2]

/-- Witness for error_presence_invariant at the initial state. -/
theorem error_presence_invariant_witness :
    initState.error ≠ none ↔
      (initState.viewState = .error ∨
        initState.runtimeState = .recovering ∨
        initState.runtimeState = .failed) :=
  error_presence_invariant initState Reachable.init

end StateMachine
